import Mathlib

/-!
Verification of the stream enrichment and windowed aggregation pipeline of
`src/demo/process_streams.py`. The pipeline is expressed there as Flink SQL
continuous queries; this file embeds the row-level semantics of those queries
(the `sensor_source` DDL, the `processed_sink` and `minio_archive` INSERT
queries, and the TUMBLE group-by feeding `metrics_sink`) as executable Lean
definitions, and proves the specified properties about them.

Timestamps (`TIMESTAMP(3)` columns) are modelled as integer milliseconds since
the Unix epoch. `DOUBLE` columns are modelled as rationals; the claims under
check involve only exact decimal arithmetic.
-/

namespace MLOpsStreams

/-- A row of the `sensor_source` Kafka table (`create_kafka_source_table`):
sensor_id, event_time, temperature, humidity, pressure, is_anomaly, building,
floor, room, model, firmware_version, battery_level. -/
structure SensorEvent where
  sensor_id : String
  event_time : Int
  temperature : ℚ
  humidity : ℚ
  pressure : ℚ
  is_anomaly : Bool
  building : String
  floorNo : Int
  room : String
  model : String
  firmware_version : String
  battery_level : Int
deriving DecidableEq, Repr

/-- A row of the `processed_sink` Kafka table (`create_processed_kafka_sink`). -/
structure EnrichedEvent where
  sensor_id : String
  event_time : Int
  temperature : ℚ
  humidity : ℚ
  pressure : ℚ
  temp_trend : String
  humidity_category : String
  comfort_index : ℚ
  anomaly_score : ℚ
  is_anomaly : Bool
  processing_time : Int
deriving DecidableEq, Repr

/-- A row of the `minio_archive` filesystem table (`create_minio_sink`):
the enriched columns plus the two partition columns. -/
structure ArchiveRecord where
  sensor_id : String
  event_time : Int
  temperature : ℚ
  humidity : ℚ
  pressure : ℚ
  temp_trend : String
  humidity_category : String
  comfort_index : ℚ
  anomaly_score : ℚ
  is_anomaly : Bool
  processing_time : Int
  partition_date : String
  partition_hour : String
deriving DecidableEq, Repr

/-- Left-pad the decimal rendering of `n` to two digits (`DATE_FORMAT` field
patterns `MM`, `dd`, `HH`). -/
def pad2 (n : Int) : String :=
  if n < 10 then "0" ++ toString n else toString n

/-- Left-pad the decimal rendering of `n` to four digits (`DATE_FORMAT` field
pattern `yyyy`). -/
def pad4 (n : Int) : String :=
  if n < 10 then "000" ++ toString n
  else if n < 100 then "00" ++ toString n
  else if n < 1000 then "0" ++ toString n
  else toString n

/-- Proleptic Gregorian civil date `(year, month, day)` of a day count relative
to 1970-01-01 (the standard days-to-civil conversion used by timestamp
formatting). -/
def civilFromDays (z0 : Int) : Int × Int × Int :=
  let z := z0 + 719468
  let era := Int.fdiv z 146097
  let doe := z - era * 146097
  let yoe := Int.fdiv (doe - Int.fdiv doe 1460 + Int.fdiv doe 36524 - Int.fdiv doe 146096) 365
  let y := yoe + era * 400
  let doy := doe - (365 * yoe + Int.fdiv yoe 4 - Int.fdiv yoe 100)
  let mp := Int.fdiv (5 * doy + 2) 153
  let d := doy - Int.fdiv (153 * mp + 2) 5 + 1
  let m := mp + (if mp < 10 then 3 else -9)
  (y + (if m ≤ 2 then 1 else 0), m, d)

/-- `DATE_FORMAT(ts, 'yyyy-MM-dd')` on a millisecond timestamp. -/
def dateFormatDay (t : Int) : String :=
  let c := civilFromDays (Int.fdiv t 86400000)
  pad4 c.1 ++ "-" ++ pad2 c.2.1 ++ "-" ++ pad2 c.2.2

/-- `DATE_FORMAT(ts, 'HH')` on a millisecond timestamp: the hour of day. -/
def dateFormatHour (t : Int) : String :=
  pad2 (Int.fdiv (Int.emod t 86400000) 3600000)

/-- The `temp_trend` CASE expression of the `processed_sink` query
(process_streams.py lines 188-192). -/
def tempTrendCase (temperature : ℚ) : String :=
  if temperature > 25 then "HOT"
  else if temperature < 18 then "COLD"
  else "NORMAL"

/-- The `humidity_category` CASE expression of the `processed_sink` query
(process_streams.py lines 193-197). -/
def humidityCategoryCase (humidity : ℚ) : String :=
  if humidity > 70 then "HIGH"
  else if humidity < 30 then "LOW"
  else "MODERATE"

/-- The comfort-index expression of the `processed_sink` query
(process_streams.py line 199). -/
def comfortIndexExpr (temperature humidity : ℚ) : ℚ :=
  100 - |temperature - 22| * 2 - |humidity - 45| * (1/2)

/-- The anomaly-score expression of the `processed_sink` query
(process_streams.py lines 201-205). -/
def anomalyScoreExpr (temperature humidity pressure : ℚ) : ℚ :=
  |temperature - 22| / 22 + |humidity - 50| / 50 + |pressure - 1013| / 1013

/-- Row semantics of the `processed_query` SELECT (`INSERT INTO processed_sink`,
process_streams.py lines 180-209). `procTime` is the value `PROCTIME()`
evaluates to at enrichment: wall-clock processing time, an input from the
runtime environment, not a function of the event. -/
def processedQueryRow (e : SensorEvent) (procTime : Int) : EnrichedEvent :=
  { sensor_id := e.sensor_id
    event_time := e.event_time
    temperature := e.temperature
    humidity := e.humidity
    pressure := e.pressure
    temp_trend := tempTrendCase e.temperature
    humidity_category := humidityCategoryCase e.humidity
    comfort_index := comfortIndexExpr e.temperature e.humidity
    anomaly_score := anomalyScoreExpr e.temperature e.humidity e.pressure
    is_anomaly := e.is_anomaly
    processing_time := procTime }

/-- The `temp_trend` CASE expression as repeated textually in the
`archive_query` (process_streams.py lines 220-224). -/
def archiveTempTrendCase (temperature : ℚ) : String :=
  if temperature > 25 then "HOT"
  else if temperature < 18 then "COLD"
  else "NORMAL"

/-- The `humidity_category` CASE expression as repeated textually in the
`archive_query` (process_streams.py lines 225-229). -/
def archiveHumidityCategoryCase (humidity : ℚ) : String :=
  if humidity > 70 then "HIGH"
  else if humidity < 30 then "LOW"
  else "MODERATE"

/-- The comfort-index expression as repeated in the `archive_query`
(process_streams.py line 230). -/
def archiveComfortIndexExpr (temperature humidity : ℚ) : ℚ :=
  100 - |temperature - 22| * 2 - |humidity - 45| * (1/2)

/-- The anomaly-score expression as repeated in the `archive_query`
(process_streams.py lines 231-235). -/
def archiveAnomalyScoreExpr (temperature humidity pressure : ℚ) : ℚ :=
  |temperature - 22| / 22 + |humidity - 50| / 50 + |pressure - 1013| / 1013

/-- Row semantics of the `archive_query` SELECT (`INSERT INTO minio_archive`,
process_streams.py lines 212-241): its own textual copy of the enrichment
expressions, plus `DATE_FORMAT(event_time, 'yyyy-MM-dd')` and
`DATE_FORMAT(event_time, 'HH')` as partition columns. -/
def archiveQueryRow (e : SensorEvent) (procTime : Int) : ArchiveRecord :=
  { sensor_id := e.sensor_id
    event_time := e.event_time
    temperature := e.temperature
    humidity := e.humidity
    pressure := e.pressure
    temp_trend := archiveTempTrendCase e.temperature
    humidity_category := archiveHumidityCategoryCase e.humidity
    comfort_index := archiveComfortIndexExpr e.temperature e.humidity
    anomaly_score := archiveAnomalyScoreExpr e.temperature e.humidity e.pressure
    is_anomaly := e.is_anomaly
    processing_time := procTime
    partition_date := dateFormatDay e.event_time
    partition_hour := dateFormatHour e.event_time }

/-- The concrete event of the spec's first scenario: temperature 26.0,
humidity 75.0, pressure 1013.0. -/
def scenarioEvent : SensorEvent :=
  { sensor_id := "sensor-1"
    event_time := 0
    temperature := 26
    humidity := 75
    pressure := 1013
    is_anomaly := false
    building := "building_a"
    floorNo := 1
    room := "room-1"
    model := "TH-200"
    firmware_version := "1.0.0"
    battery_level := 80 }

lemma tempTrendCase_eq_hot (t : ℚ) : tempTrendCase t = "HOT" ↔ 25 < t := by
  unfold tempTrendCase
  split_ifs with h1 h2 <;> simp [*]

lemma tempTrendCase_eq_cold (t : ℚ) : tempTrendCase t = "COLD" ↔ t < 18 := by
  unfold tempTrendCase
  split_ifs with h1 h2
  · simp
    linarith
  · simp [h2]
  · simp [h2]

lemma tempTrendCase_eq_normal (t : ℚ) :
    tempTrendCase t = "NORMAL" ↔ ¬ 25 < t ∧ ¬ t < 18 := by
  unfold tempTrendCase
  split_ifs with h1 h2 <;> simp [*]

lemma humidityCategoryCase_eq_high (h : ℚ) : humidityCategoryCase h = "HIGH" ↔ 70 < h := by
  unfold humidityCategoryCase
  split_ifs with h1 h2 <;> simp [*]

lemma humidityCategoryCase_eq_low (h : ℚ) : humidityCategoryCase h = "LOW" ↔ h < 30 := by
  unfold humidityCategoryCase
  split_ifs with h1 h2
  · simp
    linarith
  · simp [h2]
  · simp [h2]

lemma humidityCategoryCase_eq_moderate (h : ℚ) :
    humidityCategoryCase h = "MODERATE" ↔ ¬ 70 < h ∧ ¬ h < 30 := by
  unfold humidityCategoryCase
  split_ifs with h1 h2 <;> simp [*]

/-- C1: enrichment assigns `temp_trend = HOT` exactly when temperature > 25,
`COLD` exactly when temperature < 18, `NORMAL` otherwise (boundaries 25 and 18
map to `NORMAL`), and `humidity_category = HIGH` exactly when humidity > 70,
`LOW` exactly when humidity < 30, `MODERATE` otherwise. -/
theorem claim_C1 (e : SensorEvent) (pt : Int) :
    ((processedQueryRow e pt).temp_trend = "HOT" ↔ 25 < e.temperature) ∧
    ((processedQueryRow e pt).temp_trend = "COLD" ↔ e.temperature < 18) ∧
    ((processedQueryRow e pt).temp_trend = "NORMAL" ↔
      ¬ 25 < e.temperature ∧ ¬ e.temperature < 18) ∧
    ((processedQueryRow e pt).humidity_category = "HIGH" ↔ 70 < e.humidity) ∧
    ((processedQueryRow e pt).humidity_category = "LOW" ↔ e.humidity < 30) ∧
    ((processedQueryRow e pt).humidity_category = "MODERATE" ↔
      ¬ 70 < e.humidity ∧ ¬ e.humidity < 30) ∧
    (e.temperature = 25 ∨ e.temperature = 18 → (processedQueryRow e pt).temp_trend = "NORMAL") :=
  ⟨tempTrendCase_eq_hot _, tempTrendCase_eq_cold _, tempTrendCase_eq_normal _,
   humidityCategoryCase_eq_high _, humidityCategoryCase_eq_low _,
   humidityCategoryCase_eq_moderate _, by
    rintro (h | h) <;>
      exact (tempTrendCase_eq_normal _).2 (by rw [h]; norm_num)⟩

/-- Witness for C1 at the boundary temperature 25: `temp_trend = NORMAL`. -/
theorem claim_C1_witness :
    (({ scenarioEvent with temperature := 25 } : SensorEvent).temperature = 25 ∨
      ({ scenarioEvent with temperature := 25 } : SensorEvent).temperature = 18) ∧
    (processedQueryRow { scenarioEvent with temperature := 25 } 0).temp_trend = "NORMAL" :=
  ⟨Or.inl rfl, (claim_C1 { scenarioEvent with temperature := 25 } 0).2.2.2.2.2.2 (Or.inl rfl)⟩

/-- C2: the enriched `comfort_index` is `100 − |t−22|·2 − |h−45|·0.5` and the
`anomaly_score` is `|t−22|/22 + |h−50|/50 + |p−1013|/1013`; on the scenario
event (26.0, 75.0, 1013.0) enrichment yields `temp_trend = HOT`,
`humidity_category = HIGH`, `comfort_index = 77`, and
`anomaly_score = 4/22 + 25/50 + 0/1013`. -/
theorem claim_C2 (e : SensorEvent) (pt : Int) :
    (processedQueryRow e pt).comfort_index =
      100 - |e.temperature - 22| * 2 - |e.humidity - 45| * (1/2) ∧
    (processedQueryRow e pt).anomaly_score =
      |e.temperature - 22| / 22 + |e.humidity - 50| / 50 + |e.pressure - 1013| / 1013 ∧
    (processedQueryRow scenarioEvent 0).temp_trend = "HOT" ∧
    (processedQueryRow scenarioEvent 0).humidity_category = "HIGH" ∧
    (processedQueryRow scenarioEvent 0).comfort_index = 77 ∧
    (processedQueryRow scenarioEvent 0).anomaly_score = 4/22 + 25/50 + 0/1013 := by
  refine ⟨rfl, rfl, ?_, ?_, ?_, ?_⟩
  · norm_num [processedQueryRow, tempTrendCase, scenarioEvent]
  · norm_num [processedQueryRow, humidityCategoryCase, scenarioEvent]
  · simp only [processedQueryRow, comfortIndexExpr, scenarioEvent]
    norm_num
  · simp only [processedQueryRow, anomalyScoreExpr, scenarioEvent]
    norm_num

/-- C4 counterexample: the enriched record includes `processing_time`, which is
`PROCTIME()` — wall-clock time at enrichment. Two applications to the same
SensorEvent at different processing times are not byte-identical. -/
theorem claim_C4_counterexample :
    processedQueryRow scenarioEvent 0 ≠ processedQueryRow scenarioEvent 1 := by
  intro h
  have hpt := congrArg EnrichedEvent.processing_time h
  simp [processedQueryRow] at hpt

/-- C4 (amended): every field of the enriched record other than
`processing_time` is a deterministic function of the input SensorEvent alone,
and two applications at the same processing time are byte-identical. -/
theorem claim_C4 (e : SensorEvent) (pt₁ pt₂ : Int) :
    (processedQueryRow e pt₁).sensor_id = (processedQueryRow e pt₂).sensor_id ∧
    (processedQueryRow e pt₁).event_time = (processedQueryRow e pt₂).event_time ∧
    (processedQueryRow e pt₁).temperature = (processedQueryRow e pt₂).temperature ∧
    (processedQueryRow e pt₁).humidity = (processedQueryRow e pt₂).humidity ∧
    (processedQueryRow e pt₁).pressure = (processedQueryRow e pt₂).pressure ∧
    (processedQueryRow e pt₁).temp_trend = (processedQueryRow e pt₂).temp_trend ∧
    (processedQueryRow e pt₁).humidity_category = (processedQueryRow e pt₂).humidity_category ∧
    (processedQueryRow e pt₁).comfort_index = (processedQueryRow e pt₂).comfort_index ∧
    (processedQueryRow e pt₁).anomaly_score = (processedQueryRow e pt₂).anomaly_score ∧
    (processedQueryRow e pt₁).is_anomaly = (processedQueryRow e pt₂).is_anomaly ∧
    (pt₁ = pt₂ → processedQueryRow e pt₁ = processedQueryRow e pt₂) :=
  ⟨rfl, rfl, rfl, rfl, rfl, rfl, rfl, rfl, rfl, rfl, fun h => by rw [h]⟩

/-- Witness for C4 (amended) at the scenario event with equal processing
times. -/
theorem claim_C4_witness :
    (0 : Int) = 0 ∧ processedQueryRow scenarioEvent 0 = processedQueryRow scenarioEvent 0 :=
  ⟨rfl, (claim_C4 scenarioEvent 0 0).2.2.2.2.2.2.2.2.2.2 rfl⟩

/-- C10: the two independently written enrichment computations — the
`processed_sink` query and the `minio_archive` query — agree on `temp_trend`,
`humidity_category`, `comfort_index` and `anomaly_score` for every event. -/
theorem claim_C10 (e : SensorEvent) (pt : Int) :
    (archiveQueryRow e pt).temp_trend = (processedQueryRow e pt).temp_trend ∧
    (archiveQueryRow e pt).humidity_category = (processedQueryRow e pt).humidity_category ∧
    (archiveQueryRow e pt).comfort_index = (processedQueryRow e pt).comfort_index ∧
    (archiveQueryRow e pt).anomaly_score = (processedQueryRow e pt).anomaly_score :=
  ⟨rfl, rfl, rfl, rfl⟩

/-! ## Source watermark (`create_kafka_source_table`)

The `sensor_source` DDL declares
`WATERMARK FOR event_time AS event_time - INTERVAL '5' SECOND`: each record
proposes the candidate `event_time - 5000` ms, and the source's watermark is
the running maximum of candidates seen so far (watermarks never regress). -/

/-- The per-record watermark candidate of the `sensor_source` DDL
(process_streams.py line 77): `event_time - INTERVAL '5' SECOND`. -/
def wmCandidate (e : SensorEvent) : Int := e.event_time - 5000

/-- The source watermark after consuming a sequence of events, `none` before
the first event: the running maximum of the per-record candidates. -/
def sourceWatermark : List SensorEvent → Option Int
  | [] => none
  | e :: es => some (es.foldl (fun w x => max w (wmCandidate x)) (wmCandidate e))

/-- The maximum event-time among the events consumed so far. -/
def maxEventTime : List SensorEvent → Option Int
  | [] => none
  | e :: es => some (es.foldl (fun m x => max m x.event_time) e.event_time)

lemma foldl_wm_sub (es : List SensorEvent) : ∀ t : Int,
    es.foldl (fun w x => max w (wmCandidate x)) (t - 5000) =
      es.foldl (fun m x => max m x.event_time) t - 5000 := by
  induction es with
  | nil => intro t; rfl
  | cons a as ih =>
    intro t
    simp only [List.foldl_cons, wmCandidate, max_sub_sub_right]
    exact ih (max t a.event_time)

lemma le_foldl_wm (es : List SensorEvent) : ∀ b : Int,
    b ≤ es.foldl (fun w x => max w (wmCandidate x)) b := by
  induction es with
  | nil => intro b; exact le_refl b
  | cons a as ih =>
    intro b
    exact (le_max_left b (wmCandidate a)).trans (ih _)

/-- C5: after each consumed event the source watermark equals the maximum
event-time seen so far minus the 5-second bounded lateness, and the watermark
is monotonically non-decreasing as further events are consumed. -/
theorem claim_C5 (es rest : List SensorEvent) :
    sourceWatermark es = (maxEventTime es).map (fun t => t - 5000) ∧
    (∀ w₁, sourceWatermark es = some w₁ →
      ∃ w₂, sourceWatermark (es ++ rest) = some w₂ ∧ w₁ ≤ w₂) := by
  constructor
  · cases es with
    | nil => rfl
    | cons e t =>
      simp only [sourceWatermark, maxEventTime, Option.map_some]
      rw [show wmCandidate e = e.event_time - 5000 from rfl, foldl_wm_sub]
      rfl
  · intro w₁ h
    cases es with
    | nil => simp [sourceWatermark] at h
    | cons e t =>
      simp only [sourceWatermark, Option.some_inj] at h
      refine ⟨(t ++ rest).foldl (fun w x => max w (wmCandidate x)) (wmCandidate e), ?_, ?_⟩
      · rfl
      · rw [List.foldl_append, ← h]
        exact le_foldl_wm rest _

/-- A second concrete event used for watermark and window witnesses. -/
def evtA : SensorEvent := { scenarioEvent with sensor_id := "sensor-2", event_time := 10000 }

/-- A concrete out-of-order event (earlier event-time, arriving later). -/
def evtB : SensorEvent := { scenarioEvent with sensor_id := "sensor-3", event_time := 3000 }

/-- Witness for C5: consuming `evtA` gives watermark 5000, and consuming the
out-of-order `evtB` afterwards does not regress it. -/
theorem claim_C5_witness :
    sourceWatermark [evtA] = some 5000 ∧
    ∃ w₂, sourceWatermark ([evtA] ++ [evtB]) = some w₂ ∧ 5000 ≤ w₂ :=
  ⟨by decide, (claim_C5 [evtA] [evtB]).2 5000 (by decide)⟩

/-! ## Archive sink (`create_minio_sink`)

The `minio_archive` table is `PARTITIONED BY (partition_date, partition_hour)`
with `sink.partition-commit.delay = '1 min'`,
`sink.partition-commit.trigger = 'process-time'` and
`sink.partition-commit.policy.kind = 'success-file'`. -/

/-- The WITH-clause options of the `minio_archive` DDL
(process_streams.py lines 137-144). -/
structure MinioSinkConfig where
  connector : String
  path : String
  fileFormat : String
  partitionKeys : List String
  commitDelayMillis : Int
  commitTrigger : String
  commitPolicyKind : String
deriving DecidableEq, Repr

/-- The `minio_archive` sink configuration as written in the DDL
(`'1 min'` delay = 60000 ms). -/
def minioArchiveConfig : MinioSinkConfig :=
  { connector := "filesystem"
    path := "s3a://mlops-data/sensor-archive"
    fileFormat := "parquet"
    partitionKeys := ["partition_date", "partition_hour"]
    commitDelayMillis := 60000
    commitTrigger := "process-time"
    commitPolicyKind := "success-file" }

/-- A written archive partition: when its first record was written
(processing time) and how many records it has received. Modelled semantics of
the filesystem sink's partition-commit protocol under the options above. -/
structure PartitionLog where
  firstWriteTime : Int
  recordCount : Nat
deriving DecidableEq, Repr

/-- With the `process-time` trigger, a partition commits when processing time
reaches its first write plus the configured delay. -/
def partitionCommitTime (p : PartitionLog) : Int :=
  p.firstWriteTime + minioArchiveConfig.commitDelayMillis

/-- The `success-file` policy writes the marker at commit time. -/
def successMarkerWritten (p : PartitionLog) (now : Int) : Prop :=
  partitionCommitTime p ≤ now

/-- The success marker is an empty file. -/
def successMarkerSizeBytes : Nat := 0

/-- A partition is considered readable exactly when its success marker has
been written. -/
def partitionReadable (p : PartitionLog) (now : Int) : Prop :=
  successMarkerWritten p now

/-- One Hive-style partition directory segment: `column=value`. -/
def hiveSegment (name value : String) : String := name ++ "=" ++ value

/-- The partition directory path of an archive record under the filesystem
connector's layout: one `column=value` segment per column of the
`PARTITIONED BY (partition_date, partition_hour)` clause, in that order — the
segment names are the partition column names. -/
def partitionPath (r : ArchiveRecord) : String :=
  hiveSegment "partition_date" r.partition_date ++ "/" ++
    hiveSegment "partition_hour" r.partition_hour

/-- C7 counterexample: the archive record of an event at 2024-10-27 03:33:20
UTC lands in `partition_date=2024-10-27/partition_hour=03`, not in the claimed
`date=2024-10-27/hour=03` — the directory segment names come from the
partition column names `partition_date`/`partition_hour`. -/
theorem claim_C7_counterexample :
    partitionPath (archiveQueryRow { scenarioEvent with event_time := 1730000000000 } 0) ≠
      "date=2024-10-27/hour=03" ∧
    partitionPath (archiveQueryRow { scenarioEvent with event_time := 1730000000000 } 0) =
      "partition_date=2024-10-27/partition_hour=03" :=
  ⟨by decide, by decide⟩

/-- C7 (amended): archive partitions are derived from event-time (not
processing-time) as hierarchical directories
`partition_date=YYYY-MM-DD/partition_hour=HH` — the `(yyyy-MM-dd, HH)` values
in that hierarchical order, with segments named after the partition columns;
a partition is readable exactly when its zero-byte success marker is written;
and the commit fires a fixed 1-minute (process-time) delay after the
partition's first write, independent of how many records the partition
holds. -/
theorem claim_C7 (e : SensorEvent) (pt pt' : Int) (p q : PartitionLog) (now : Int) :
    (archiveQueryRow e pt).partition_date = dateFormatDay e.event_time ∧
    (archiveQueryRow e pt).partition_hour = dateFormatHour e.event_time ∧
    (archiveQueryRow e pt).partition_date = (archiveQueryRow e pt').partition_date ∧
    (archiveQueryRow e pt).partition_hour = (archiveQueryRow e pt').partition_hour ∧
    dateFormatDay 1730000000000 = "2024-10-27" ∧
    dateFormatHour 1730000000000 = "03" ∧
    minioArchiveConfig.partitionKeys = ["partition_date", "partition_hour"] ∧
    partitionPath (archiveQueryRow e pt) =
      hiveSegment "partition_date" (dateFormatDay e.event_time) ++ "/" ++
        hiveSegment "partition_hour" (dateFormatHour e.event_time) ∧
    partitionPath (archiveQueryRow { scenarioEvent with event_time := 1730000000000 } 0) =
      "partition_date=2024-10-27/partition_hour=03" ∧
    (partitionReadable p now ↔ successMarkerWritten p now) ∧
    successMarkerSizeBytes = 0 ∧
    minioArchiveConfig.commitTrigger = "process-time" ∧
    minioArchiveConfig.commitDelayMillis = 60000 ∧
    (successMarkerWritten p now ↔ p.firstWriteTime + 60000 ≤ now) ∧
    (p.firstWriteTime = q.firstWriteTime → partitionCommitTime p = partitionCommitTime q) := by
  refine ⟨rfl, rfl, rfl, rfl, by decide, by decide, rfl, rfl, by decide, Iff.rfl, rfl, rfl, rfl,
    Iff.rfl, ?_⟩
  intro h
  unfold partitionCommitTime
  rw [h]

/-- Witness for C7: two partitions with the same first-write time but
different record counts commit at the same time. -/
theorem claim_C7_witness :
    (PartitionLog.mk 0 1).firstWriteTime = (PartitionLog.mk 0 500).firstWriteTime ∧
    partitionCommitTime (PartitionLog.mk 0 1) = partitionCommitTime (PartitionLog.mk 0 500) :=
  ⟨rfl, (claim_C7 scenarioEvent 0 0 (PartitionLog.mk 0 1) (PartitionLog.mk 0 500)
    0).2.2.2.2.2.2.2.2.2.2.2.2.2.2 rfl⟩

/-! ## Windowed metrics aggregation (`metrics_query`)

`INSERT INTO metrics_sink SELECT ... FROM sensor_source
GROUP BY TUMBLE(event_time, INTERVAL '1' MINUTE), building`
(process_streams.py lines 244-261). -/

/-- Tumbling-window assignment: the start of the 1-minute window containing
`t` (integer division of event-time by the window size). -/
def windowStart (t : Int) : Int := 60000 * Int.fdiv t 60000

/-- `ROUND(q, n)`: round to `n` decimal places. -/
def roundTo (n : ℕ) (q : ℚ) : ℚ := ((round (q * 10 ^ n) : ℤ) : ℚ) / 10 ^ n

/-- The running aggregates of one (window, building) group: `COUNT(*)`, the
sums behind the three `AVG`s, `SUM(CASE WHEN is_anomaly THEN 1 ELSE 0 END)`
and `SUM(CASE WHEN battery_level < 20 THEN 1 ELSE 0 END)`. -/
structure WindowAccumulator where
  window_s : Int
  building : String
  count : ℕ
  sumTemperature : ℚ
  sumHumidity : ℚ
  sumPressure : ℚ
  anomalies : ℤ
  lowBattery : ℤ
deriving DecidableEq, Repr

/-- Empty accumulator for a (window, building) key. -/
def accInit (ws : Int) (b : String) : WindowAccumulator :=
  { window_s := ws, building := b, count := 0, sumTemperature := 0,
    sumHumidity := 0, sumPressure := 0, anomalies := 0, lowBattery := 0 }

/-- Fold one event into the group's running aggregates. -/
def accAdd (a : WindowAccumulator) (e : SensorEvent) : WindowAccumulator :=
  { a with
    count := a.count + 1
    sumTemperature := a.sumTemperature + e.temperature
    sumHumidity := a.sumHumidity + e.humidity
    sumPressure := a.sumPressure + e.pressure
    anomalies := a.anomalies + (if e.is_anomaly then 1 else 0)
    lowBattery := a.lowBattery + (if e.battery_level < 20 then 1 else 0) }

/-- A row of the `metrics_sink` table (`create_aggregated_metrics_sink`). -/
structure WindowSummary where
  window_start : Int
  window_end : Int
  building : String
  sensor_count : ℕ
  avg_temperature : ℚ
  avg_humidity : ℚ
  avg_pressure : ℚ
  anomaly_count : ℤ
  anomaly_rate : ℚ
  low_battery_count : ℤ
deriving DecidableEq, Repr

/-- The SELECT row of the `metrics_query` for one closing (window, building)
group: `TUMBLE_START`/`TUMBLE_END`, `COUNT(*)`, the three `ROUND(AVG(..), 2)`
columns, the anomaly count, `ROUND(anomaly_count / COUNT(*), 3)` and the
low-battery count. -/
def emitSummary (a : WindowAccumulator) : WindowSummary :=
  { window_start := a.window_s
    window_end := a.window_s + 60000
    building := a.building
    sensor_count := a.count
    avg_temperature := roundTo 2 (a.sumTemperature / (a.count : ℚ))
    avg_humidity := roundTo 2 (a.sumHumidity / (a.count : ℚ))
    avg_pressure := roundTo 2 (a.sumPressure / (a.count : ℚ))
    anomaly_count := a.anomalies
    anomaly_rate := roundTo 3 ((a.anomalies : ℚ) / (a.count : ℚ))
    low_battery_count := a.lowBattery }

/-- The `metrics_query` aggregation over the events of one (window, building)
group. -/
def aggregateGroup (ws : Int) (b : String) (es : List SensorEvent) : WindowSummary :=
  emitSummary (es.foldl accAdd (accInit ws b))

lemma foldl_accAdd_window_s (es : List SensorEvent) : ∀ a : WindowAccumulator,
    (es.foldl accAdd a).window_s = a.window_s := by
  induction es with
  | nil => intro a; rfl
  | cons e t ih => intro a; exact (ih (accAdd a e)).trans rfl

lemma foldl_accAdd_building (es : List SensorEvent) : ∀ a : WindowAccumulator,
    (es.foldl accAdd a).building = a.building := by
  induction es with
  | nil => intro a; rfl
  | cons e t ih => intro a; exact (ih (accAdd a e)).trans rfl

lemma foldl_accAdd_count (es : List SensorEvent) : ∀ a : WindowAccumulator,
    (es.foldl accAdd a).count = a.count + es.length := by
  induction es with
  | nil => intro a; rfl
  | cons e t ih =>
    intro a
    rw [List.foldl_cons, ih (accAdd a e)]
    simp [accAdd]
    omega

lemma foldl_accAdd_sumTemperature (es : List SensorEvent) : ∀ a : WindowAccumulator,
    (es.foldl accAdd a).sumTemperature = a.sumTemperature + (es.map (·.temperature)).sum := by
  induction es with
  | nil => intro a; simp
  | cons e t ih =>
    intro a
    rw [List.foldl_cons, ih (accAdd a e)]
    simp [accAdd]
    ring

lemma foldl_accAdd_sumHumidity (es : List SensorEvent) : ∀ a : WindowAccumulator,
    (es.foldl accAdd a).sumHumidity = a.sumHumidity + (es.map (·.humidity)).sum := by
  induction es with
  | nil => intro a; simp
  | cons e t ih =>
    intro a
    rw [List.foldl_cons, ih (accAdd a e)]
    simp [accAdd]
    ring

lemma foldl_accAdd_sumPressure (es : List SensorEvent) : ∀ a : WindowAccumulator,
    (es.foldl accAdd a).sumPressure = a.sumPressure + (es.map (·.pressure)).sum := by
  induction es with
  | nil => intro a; simp
  | cons e t ih =>
    intro a
    rw [List.foldl_cons, ih (accAdd a e)]
    simp [accAdd]
    ring

lemma foldl_accAdd_anomalies (es : List SensorEvent) : ∀ a : WindowAccumulator,
    (es.foldl accAdd a).anomalies = a.anomalies + (es.countP (·.is_anomaly) : ℤ) := by
  induction es with
  | nil => intro a; simp
  | cons e t ih =>
    intro a
    rw [List.foldl_cons, ih (accAdd a e), List.countP_cons]
    simp [accAdd]
    cases h : e.is_anomaly <;> simp [h]
    omega

lemma foldl_accAdd_lowBattery (es : List SensorEvent) : ∀ a : WindowAccumulator,
    (es.foldl accAdd a).lowBattery =
      a.lowBattery + (es.countP (fun e => decide (e.battery_level < 20)) : ℤ) := by
  induction es with
  | nil => intro a; simp
  | cons e t ih =>
    intro a
    rw [List.foldl_cons, ih (accAdd a e), List.countP_cons]
    simp only [accAdd]
    by_cases h : e.battery_level < 20 <;> simp [h]
    omega

/-- The three-event scenario group: one building, one 1-minute window,
1 event marked anomalous, 1 event with battery_level 15. -/
def demoEvent1 : SensorEvent :=
  { scenarioEvent with
    sensor_id := "s-1"
    event_time := 1000
    temperature := 20
    humidity := 50
    pressure := 1000
    is_anomaly := true
    battery_level := 80 }

/-- Second scenario event (battery_level 15, below the low-battery
threshold). -/
def demoEvent2 : SensorEvent :=
  { scenarioEvent with
    sensor_id := "s-2"
    event_time := 2000
    temperature := 21
    humidity := 51
    pressure := 1001
    is_anomaly := false
    battery_level := 15 }

/-- Third scenario event. -/
def demoEvent3 : SensorEvent :=
  { scenarioEvent with
    sensor_id := "s-3"
    event_time := 3000
    temperature := 22
    humidity := 52
    pressure := 1002
    is_anomaly := false
    battery_level := 90 }

/-- The scenario group: three events in the window starting at 0, all for
`building_a`. -/
def demoGroup : List SensorEvent := [demoEvent1, demoEvent2, demoEvent3]

/-- C3: for every (window, building) group, `sensor_count` is the number of
events, the three averages are the arithmetic means rounded to 2 decimals,
`anomaly_count` counts events with `is_anomaly`, `anomaly_rate` is
`anomaly_count / sensor_count` rounded to 3 decimals, and `low_battery_count`
counts events with `battery_level < 20`; the three-event scenario (1 anomalous,
1 with battery 15) yields `sensor_count = 3`, `anomaly_count = 1`,
`anomaly_rate = 0.333`, `low_battery_count = 1`. -/
theorem claim_C3 (ws : Int) (b : String) (es : List SensorEvent) :
    (aggregateGroup ws b es).sensor_count = es.length ∧
    (aggregateGroup ws b es).avg_temperature =
      roundTo 2 ((es.map (·.temperature)).sum / (es.length : ℚ)) ∧
    (aggregateGroup ws b es).avg_humidity =
      roundTo 2 ((es.map (·.humidity)).sum / (es.length : ℚ)) ∧
    (aggregateGroup ws b es).avg_pressure =
      roundTo 2 ((es.map (·.pressure)).sum / (es.length : ℚ)) ∧
    (aggregateGroup ws b es).anomaly_count = (es.countP (·.is_anomaly) : ℤ) ∧
    (aggregateGroup ws b es).anomaly_rate =
      roundTo 3 ((es.countP (·.is_anomaly) : ℚ) / (es.length : ℚ)) ∧
    (aggregateGroup ws b es).low_battery_count =
      (es.countP (fun e => decide (e.battery_level < 20)) : ℤ) ∧
    (aggregateGroup 0 "building_a" demoGroup).sensor_count = 3 ∧
    (aggregateGroup 0 "building_a" demoGroup).anomaly_count = 1 ∧
    (aggregateGroup 0 "building_a" demoGroup).anomaly_rate = 333/1000 ∧
    (aggregateGroup 0 "building_a" demoGroup).low_battery_count = 1 := by
  refine ⟨?_, ?_, ?_, ?_, ?_, ?_, ?_, ?_, ?_, ?_, ?_⟩
  · simp [aggregateGroup, emitSummary, foldl_accAdd_count, accInit]
  · simp [aggregateGroup, emitSummary, foldl_accAdd_sumTemperature,
      foldl_accAdd_count, accInit]
  · simp [aggregateGroup, emitSummary, foldl_accAdd_sumHumidity,
      foldl_accAdd_count, accInit]
  · simp [aggregateGroup, emitSummary, foldl_accAdd_sumPressure,
      foldl_accAdd_count, accInit]
  · simp [aggregateGroup, emitSummary, foldl_accAdd_anomalies, accInit]
  · simp [aggregateGroup, emitSummary, foldl_accAdd_anomalies,
      foldl_accAdd_count, accInit]
  · simp [aggregateGroup, emitSummary, foldl_accAdd_lowBattery, accInit]
  · rfl
  · rfl
  · show roundTo 3 _ = _
    norm_num [aggregateGroup, emitSummary, accAdd, accInit, demoGroup,
      demoEvent1, demoEvent2, demoEvent3, roundTo, round_eq]
  · rfl

/-! ## Window aggregator state machine

Watermark-driven semantics of the tumbling-window GROUP BY of `metrics_query`:
a (window, building) accumulator is created lazily on the first event mapped
to it (OPEN), an event whose window end is at or behind the current watermark
is late — counted by the operator's late-records-dropped counter and not
aggregated — and when the watermark reaches a window's end the group's summary
row is emitted to `metrics_sink` and the accumulator evicted
(CLOSING → EMITTED). -/

/-- The aggregator's state: current global watermark, the OPEN accumulators,
the summaries already handed to the metrics sink (in emission order), and the
late-records counter. -/
structure AggState where
  watermark : Int
  openWindows : List WindowAccumulator
  emitted : List WindowSummary
  lateCount : ℕ
deriving DecidableEq, Repr

/-- The (window-start, building) keys of a list of accumulators. -/
def keysOf (l : List WindowAccumulator) : List (Int × String) :=
  l.map (fun a => (a.window_s, a.building))

/-- The (window-start, building) keys of the summaries emitted so far. -/
def emittedKeys (s : AggState) : List (Int × String) :=
  s.emitted.map (fun m => (m.window_start, m.building))

/-- Fold an event into the accumulator of its (window, building) key,
creating the accumulator on the key's first event. -/
def addEventToOpen (ws : Int) (b : String) (e : SensorEvent) :
    List WindowAccumulator → List WindowAccumulator
  | [] => [accAdd (accInit ws b) e]
  | a :: rest =>
    if a.window_s = ws ∧ a.building = b then accAdd a e :: rest
    else a :: addEventToOpen ws b e rest

/-- Advance the watermark to `w`: every accumulator whose window end is at or
behind `w` is emitted exactly once and evicted; the rest stay OPEN. -/
def fire (w : Int) (s : AggState) : AggState :=
  { watermark := w
    openWindows := s.openWindows.filter (fun a => decide (w < a.window_s + 60000))
    emitted := s.emitted ++
      (s.openWindows.filter (fun a => decide (a.window_s + 60000 ≤ w))).map emitSummary
    lateCount := s.lateCount }

/-- Process one event: if its window end is at or behind the watermark the
event is late (counted, not aggregated); otherwise it updates its group's
accumulator. The watermark then advances to the running maximum of candidates
and due windows fire. -/
def stepEvent (s : AggState) (e : SensorEvent) : AggState :=
  if windowStart e.event_time + 60000 ≤ s.watermark then
    fire (max s.watermark (wmCandidate e)) { s with lateCount := s.lateCount + 1 }
  else
    fire (max s.watermark (wmCandidate e))
      { s with openWindows := addEventToOpen (windowStart e.event_time) e.building e s.openWindows }

/-- Run the aggregator over a sequence of consumed events. -/
def runAgg (s : AggState) (es : List SensorEvent) : AggState :=
  es.foldl stepEvent s

/-- The aggregator's initial state (no windows, nothing emitted), with initial
watermark `w0`. -/
def initAggState (w0 : Int) : AggState :=
  { watermark := w0, openWindows := [], emitted := [], lateCount := 0 }

/-- State invariant of the aggregator: OPEN windows end strictly after the
watermark, OPEN keys and emitted keys are duplicate-free, every OPEN
accumulator holds at least one event, emitted windows end at or before the
watermark, and every emitted summary counts at least one event. -/
def AggInv (s : AggState) : Prop :=
  (∀ a ∈ s.openWindows, s.watermark < a.window_s + 60000) ∧
  (keysOf s.openWindows).Nodup ∧
  (∀ a ∈ s.openWindows, 1 ≤ a.count) ∧
  (∀ k ∈ emittedKeys s, k.1 + 60000 ≤ s.watermark) ∧
  (emittedKeys s).Nodup ∧
  (∀ m ∈ s.emitted, 1 ≤ m.sensor_count)

lemma windowStart_le (t : Int) : windowStart t ≤ t := by
  unfold windowStart
  have h := Int.fdiv_add_fmod t 60000
  have h2 := Int.fmod_nonneg' t (by norm_num : (0:ℤ) < 60000)
  omega

lemma lt_windowStart_add (t : Int) : t < windowStart t + 60000 := by
  unfold windowStart
  have h := Int.fdiv_add_fmod t 60000
  have h3 := Int.fmod_lt_of_pos t (by norm_num : (0:ℤ) < 60000)
  omega

lemma accAdd_window_s (a : WindowAccumulator) (e : SensorEvent) :
    (accAdd a e).window_s = a.window_s := rfl

lemma accAdd_building (a : WindowAccumulator) (e : SensorEvent) :
    (accAdd a e).building = a.building := rfl

lemma mem_addEventToOpen (ws : Int) (b : String) (e : SensorEvent) :
    ∀ l (a' : WindowAccumulator), a' ∈ addEventToOpen ws b e l →
      (∃ a ∈ l, a' = accAdd a e) ∨ a' ∈ l ∨ a' = accAdd (accInit ws b) e := by
  intro l
  induction l with
  | nil =>
    intro a' h
    simp only [addEventToOpen, List.mem_singleton] at h
    exact Or.inr (Or.inr h)
  | cons a rest ih =>
    intro a' h
    simp only [addEventToOpen] at h
    split_ifs at h with hk
    · rcases List.mem_cons.mp h with h1 | h1
      · exact Or.inl ⟨a, List.mem_cons_self a rest, h1⟩
      · exact Or.inr (Or.inl (List.mem_cons_of_mem a h1))
    · rcases List.mem_cons.mp h with h1 | h1
      · exact Or.inr (Or.inl (h1 ▸ List.mem_cons_self a rest))
      · rcases ih a' h1 with h2 | h2 | h2
        · obtain ⟨x, hx, hx'⟩ := h2
          exact Or.inl ⟨x, List.mem_cons_of_mem a hx, hx'⟩
        · exact Or.inr (Or.inl (List.mem_cons_of_mem a h2))
        · exact Or.inr (Or.inr h2)

lemma keysOf_cons (a : WindowAccumulator) (l : List WindowAccumulator) :
    keysOf (a :: l) = (a.window_s, a.building) :: keysOf l := rfl

lemma keysOf_addEventToOpen (ws : Int) (b : String) (e : SensorEvent) :
    ∀ l : List WindowAccumulator,
      keysOf (addEventToOpen ws b e l) =
        if (ws, b) ∈ keysOf l then keysOf l else keysOf l ++ [(ws, b)] := by
  intro l
  induction l with
  | nil => simp [addEventToOpen, keysOf, accAdd, accInit]
  | cons a rest ih =>
    by_cases hk : a.window_s = ws ∧ a.building = b
    · have hkey : (a.window_s, a.building) = (ws, b) := by
        rw [hk.1, hk.2]
      have h1 : addEventToOpen ws b e (a :: rest) = accAdd a e :: rest := by
        simp [addEventToOpen, if_pos hk]
      rw [h1, keysOf_cons, accAdd_window_s, accAdd_building, keysOf_cons]
      have hmem : (ws, b) ∈ (a.window_s, a.building) :: keysOf rest := by
        rw [hkey]; exact List.mem_cons_self _ _
      rw [if_pos hmem, hkey]
    · have hkey : (a.window_s, a.building) ≠ (ws, b) := by
        intro hc
        exact hk ⟨congrArg Prod.fst hc, congrArg Prod.snd hc⟩
      have h1 : addEventToOpen ws b e (a :: rest) = a :: addEventToOpen ws b e rest := by
        simp [addEventToOpen, if_neg hk]
      rw [h1, keysOf_cons, ih, keysOf_cons]
      by_cases hmem : (ws, b) ∈ keysOf rest
      · rw [if_pos hmem, if_pos (List.mem_cons_of_mem _ hmem)]
      · have hnot : (ws, b) ∉ (a.window_s, a.building) :: keysOf rest := by
          intro hc
          rcases List.mem_cons.mp hc with h2 | h2
          · exact hkey h2.symm
          · exact hmem h2
        rw [if_neg hmem, if_neg hnot, List.cons_append]

lemma key_mem_addEventToOpen (ws : Int) (b : String) (e : SensorEvent)
    (l : List WindowAccumulator) : (ws, b) ∈ keysOf (addEventToOpen ws b e l) := by
  rw [keysOf_addEventToOpen]
  split_ifs with h
  · exact h
  · exact List.mem_append_right _ (List.mem_singleton.mpr rfl)

lemma keysOf_addEventToOpen_superset (ws : Int) (b : String) (e : SensorEvent)
    (l : List WindowAccumulator) (k : Int × String) (hk : k ∈ keysOf l) :
    k ∈ keysOf (addEventToOpen ws b e l) := by
  rw [keysOf_addEventToOpen]
  split_ifs with h
  · exact hk
  · exact List.mem_append_left _ hk

lemma nodup_keysOf_addEventToOpen (ws : Int) (b : String) (e : SensorEvent)
    (l : List WindowAccumulator) (h : (keysOf l).Nodup) :
    (keysOf (addEventToOpen ws b e l)).Nodup := by
  rw [keysOf_addEventToOpen]
  split_ifs with hm
  · exact h
  · rw [List.nodup_append]
    exact ⟨h, List.nodup_singleton _, by
      intro k hk hk'
      rw [List.mem_singleton] at hk'
      exact hm (hk' ▸ hk)⟩

lemma mem_keysOf (k : Int × String) (l : List WindowAccumulator) :
    k ∈ keysOf l ↔ ∃ a ∈ l, (a.window_s, a.building) = k := by
  simp [keysOf]

lemma emittedKeys_fire (w : Int) (s : AggState) :
    emittedKeys (fire w s) =
      emittedKeys s ++
        keysOf (s.openWindows.filter (fun a => decide (a.window_s + 60000 ≤ w))) := by
  unfold emittedKeys fire keysOf
  rw [List.map_append, List.map_map]
  rfl

lemma AggInv_fire (w : Int) (s : AggState) (hw : s.watermark ≤ w) (h : AggInv s) :
    AggInv (fire w s) := by
  obtain ⟨hOpen, hONodup, hCount, hEmit, hENodup, hECount⟩ := h
  have hkeysub : List.Sublist
      (keysOf (s.openWindows.filter (fun a => decide (a.window_s + 60000 ≤ w))))
      (keysOf s.openWindows) := List.Sublist.map _ (List.filter_sublist _)
  refine ⟨?_, ?_, ?_, ?_, ?_, ?_⟩
  · intro a ha
    have hm := List.mem_filter.mp ha
    exact of_decide_eq_true hm.2
  · exact List.Nodup.sublist (List.Sublist.map _ (List.filter_sublist _)) hONodup
  · intro a ha
    exact hCount a (List.mem_filter.mp ha).1
  · intro k hk
    rw [emittedKeys_fire] at hk
    rcases List.mem_append.mp hk with h1 | h1
    · exact (hEmit k h1).trans hw
    · obtain ⟨a, ha, hak⟩ := (mem_keysOf k _).mp h1
      have hle := of_decide_eq_true (List.mem_filter.mp ha).2
      have : k.1 = a.window_s := by rw [← hak]
      rw [this]
      exact hle
  · rw [emittedKeys_fire, List.nodup_append]
    refine ⟨hENodup, List.Nodup.sublist hkeysub hONodup, ?_⟩
    intro k hk1 hk2
    have hb := hEmit k hk1
    obtain ⟨a, ha, hak⟩ := (mem_keysOf k _).mp hk2
    have hahead := hOpen a (List.mem_filter.mp ha).1
    have : k.1 = a.window_s := by rw [← hak]
    omega
  · intro m hm
    rcases List.mem_append.mp hm with h1 | h1
    · exact hECount m h1
    · obtain ⟨a, ha, ham⟩ := List.mem_map.mp h1
      have := hCount a (List.mem_filter.mp ha).1
      rw [← ham]
      exact this

lemma AggInv_stepEvent (s : AggState) (e : SensorEvent) (h : AggInv s) :
    AggInv (stepEvent s e) := by
  unfold stepEvent
  split_ifs with hl
  · exact AggInv_fire _ _ (le_max_left _ _) h
  · refine AggInv_fire _ _ (le_max_left _ _) ?_
    obtain ⟨hOpen, hONodup, hCount, hEmit, hENodup, hECount⟩ := h
    refine ⟨?_, ?_, ?_, hEmit, hENodup, hECount⟩
    · intro a ha
      rcases mem_addEventToOpen _ _ _ _ a ha with h1 | h1 | h1
      · obtain ⟨x, hx, hax⟩ := h1
        rw [hax, accAdd_window_s]
        exact hOpen x hx
      · exact hOpen a h1
      · rw [h1, accAdd_window_s]
        exact not_le.mp hl
    · exact nodup_keysOf_addEventToOpen _ _ _ _ hONodup
    · intro a ha
      rcases mem_addEventToOpen _ _ _ _ a ha with h1 | h1 | h1
      · obtain ⟨x, hx, hax⟩ := h1
        rw [hax]
        show 1 ≤ x.count + 1
        omega
      · exact hCount a h1
      · rw [h1]
        exact le_refl 1

lemma AggInv_initAggState (w0 : Int) : AggInv (initAggState w0) := by
  refine ⟨?_, ?_, ?_, ?_, ?_, ?_⟩ <;> simp [initAggState, keysOf, emittedKeys]

lemma AggInv_runAgg (es : List SensorEvent) : ∀ s : AggState, AggInv s →
    AggInv (runAgg s es) := by
  induction es with
  | nil => intro s h; exact h
  | cons e t ih =>
    intro s h
    exact ih (stepEvent s e) (AggInv_stepEvent s e h)

lemma fire_key_accounted (w : Int) (s : AggState) (k : Int × String)
    (hk : k ∈ keysOf s.openWindows) :
    k ∈ keysOf (fire w s).openWindows ∨ k ∈ emittedKeys (fire w s) := by
  obtain ⟨a, ha, hak⟩ := (mem_keysOf k _).mp hk
  by_cases hc : a.window_s + 60000 ≤ w
  · right
    rw [emittedKeys_fire]
    refine List.mem_append_right _ ((mem_keysOf k _).mpr ⟨a, ?_, hak⟩)
    exact List.mem_filter.mpr ⟨ha, decide_eq_true hc⟩
  · left
    refine (mem_keysOf k _).mpr ⟨a, ?_, hak⟩
    exact List.mem_filter.mpr ⟨ha, decide_eq_true (not_le.mp hc)⟩

lemma stepEvent_key_preserved (s : AggState) (e : SensorEvent) (k : Int × String)
    (hk : k ∈ keysOf s.openWindows ∨ k ∈ emittedKeys s) :
    k ∈ keysOf (stepEvent s e).openWindows ∨ k ∈ emittedKeys (stepEvent s e) := by
  unfold stepEvent
  split_ifs with hl
  · rcases hk with h1 | h1
    · exact fire_key_accounted _ _ k h1
    · right
      rw [emittedKeys_fire]
      exact List.mem_append_left _ h1
  · rcases hk with h1 | h1
    · exact fire_key_accounted _ _ k
        (keysOf_addEventToOpen_superset _ _ _ _ k h1)
    · right
      rw [emittedKeys_fire]
      exact List.mem_append_left _ h1

lemma runAgg_key_preserved (es : List SensorEvent) : ∀ (s : AggState) (k : Int × String),
    k ∈ keysOf s.openWindows ∨ k ∈ emittedKeys s →
    k ∈ keysOf (runAgg s es).openWindows ∨ k ∈ emittedKeys (runAgg s es) := by
  induction es with
  | nil => intro s k h; exact h
  | cons e t ih =>
    intro s k h
    exact ih (stepEvent s e) k (stepEvent_key_preserved s e k h)

lemma stepEvent_key_accounted (s : AggState) (e : SensorEvent) :
    (stepEvent s e).lateCount = s.lateCount + 1 ∨
    ((windowStart e.event_time, e.building) ∈ keysOf (stepEvent s e).openWindows ∨
      (windowStart e.event_time, e.building) ∈ emittedKeys (stepEvent s e)) := by
  unfold stepEvent
  split_ifs with hl
  · left
    rfl
  · right
    exact fire_key_accounted _ _ _ (key_mem_addEventToOpen _ _ _ _)

/-- C9: no window summary is ever emitted with `sensor_count = 0` — every
summary the aggregator hands to the metrics sink counts at least one event, so
the division `anomaly_count / sensor_count` is only evaluated with
`sensor_count ≥ 1`. -/
theorem claim_C9 (w0 : Int) (es : List SensorEvent) (m : WindowSummary)
    (hm : m ∈ (runAgg (initAggState w0) es).emitted) : 1 ≤ m.sensor_count :=
  (AggInv_runAgg es _ (AggInv_initAggState w0)).2.2.2.2.2 m hm

/-- The late-driver event: event-time 180000 advances the watermark to 175000,
past the end of the first 1-minute window. -/
def evtC : SensorEvent := { scenarioEvent with sensor_id := "s-9", event_time := 180000 }

/-- Witness for C9: in the concrete two-event run the window [0, 60000) for
`building_a` is emitted, and its summary counts one event. -/
theorem claim_C9_witness :
    emitSummary (accAdd (accInit 0 "building_a") demoEvent1) ∈
      (runAgg (initAggState (-1000000)) [demoEvent1, evtC]).emitted ∧
    1 ≤ (emitSummary (accAdd (accInit 0 "building_a") demoEvent1)).sensor_count := by
  have hm : emitSummary (accAdd (accInit 0 "building_a") demoEvent1) ∈
      (runAgg (initAggState (-1000000)) [demoEvent1, evtC]).emitted := by
    show emitSummary (accAdd (accInit 0 "building_a") demoEvent1) ∈
      [emitSummary (accAdd (accInit 0 "building_a") demoEvent1)]
    exact List.mem_singleton.mpr rfl
  exact ⟨hm, claim_C9 (-1000000) [demoEvent1, evtC] _ hm⟩

/-- C6: over any run, (window, building) summaries are emitted at most once
(the emitted keys are duplicate-free); each processed event is either counted
late at its step or its (window, building) key remains accounted for — OPEN or
EMITTED — at the end of the run; and once the watermark has passed a window's
end that key is no longer OPEN, so a non-late event's window is emitted
exactly once. -/
theorem claim_C6 (w0 : Int) (l1 l2 : List SensorEvent) (e : SensorEvent) :
    (emittedKeys (runAgg (initAggState w0) (l1 ++ e :: l2))).Nodup ∧
    ((windowStart e.event_time, e.building) ∈
        emittedKeys (runAgg (initAggState w0) (l1 ++ e :: l2)) ∨
      (windowStart e.event_time, e.building) ∈
        keysOf (runAgg (initAggState w0) (l1 ++ e :: l2)).openWindows ∨
      (runAgg (initAggState w0) (l1 ++ [e])).lateCount =
        (runAgg (initAggState w0) l1).lateCount + 1) ∧
    (windowStart e.event_time + 60000 ≤ (runAgg (initAggState w0) (l1 ++ e :: l2)).watermark →
      (windowStart e.event_time, e.building) ∉
        keysOf (runAgg (initAggState w0) (l1 ++ e :: l2)).openWindows) := by
  have hfin : AggInv (runAgg (initAggState w0) (l1 ++ e :: l2)) :=
    AggInv_runAgg _ _ (AggInv_initAggState w0)
  have hsplit : runAgg (initAggState w0) (l1 ++ e :: l2) =
      runAgg (stepEvent (runAgg (initAggState w0) l1) e) l2 := by
    unfold runAgg
    rw [List.foldl_append]
    rfl
  have hsplit2 : runAgg (initAggState w0) (l1 ++ [e]) =
      stepEvent (runAgg (initAggState w0) l1) e := by
    unfold runAgg
    rw [List.foldl_append]
    rfl
  refine ⟨hfin.2.2.2.2.1, ?_, ?_⟩
  · rcases stepEvent_key_accounted (runAgg (initAggState w0) l1) e with hc | hc
    · right; right
      rw [hsplit2]
      exact hc
    · rw [hsplit]
      rcases runAgg_key_preserved l2 _ _ hc with h1 | h1
      · right; left; exact h1
      · left; exact h1
  · intro hw hmem
    obtain ⟨a, ha, hak⟩ := (mem_keysOf _ _).mp hmem
    have hahead := hfin.1 a ha
    have h1 : a.window_s = windowStart e.event_time := congrArg Prod.fst hak
    omega

/-- Witness for C6: in the concrete run the first event's window is no longer
OPEN once the watermark passed its end (it was emitted). -/
theorem claim_C6_witness :
    windowStart demoEvent1.event_time + 60000 ≤
      (runAgg (initAggState (-1000000)) ([] ++ demoEvent1 :: [evtC])).watermark ∧
    (windowStart demoEvent1.event_time, demoEvent1.building) ∉
      keysOf (runAgg (initAggState (-1000000)) ([] ++ demoEvent1 :: [evtC])).openWindows :=
  ⟨by decide, (claim_C6 (-1000000) [] [evtC] demoEvent1).2.2 (by decide)⟩

/-- C8: an event whose 1-minute window is already closed — its window end is
at or behind the watermark, in particular whenever its (window, building) key
was already EMITTED — is not aggregated (OPEN accumulators unchanged), does
not reopen or re-emit the window (emitted output unchanged), does not disturb
the watermark, and increments the late-data counter by exactly one. -/
theorem claim_C8 (s : AggState) (e : SensorEvent) (hInv : AggInv s)
    (hlate : windowStart e.event_time + 60000 ≤ s.watermark ∨
      (windowStart e.event_time, e.building) ∈ emittedKeys s) :
    (stepEvent s e).openWindows = s.openWindows ∧
    (stepEvent s e).emitted = s.emitted ∧
    (stepEvent s e).watermark = s.watermark ∧
    (stepEvent s e).lateCount = s.lateCount + 1 := by
  have hl : windowStart e.event_time + 60000 ≤ s.watermark := by
    rcases hlate with h | h
    · exact h
    · exact hInv.2.2.2.1 _ h
  have hcand : wmCandidate e ≤ s.watermark := by
    have h1 := lt_windowStart_add e.event_time
    unfold wmCandidate
    omega
  unfold stepEvent
  rw [if_pos hl, max_eq_left hcand]
  refine ⟨?_, ?_, rfl, rfl⟩
  · show List.filter (fun a => decide (s.watermark < a.window_s + 60000)) s.openWindows =
      s.openWindows
    exact List.filter_eq_self.mpr (fun a ha => decide_eq_true (hInv.1 a ha))
  · show s.emitted ++ List.map emitSummary
      (List.filter (fun a => decide (a.window_s + 60000 ≤ s.watermark)) s.openWindows) =
      s.emitted
    have hnil : List.filter (fun a => decide (a.window_s + 60000 ≤ s.watermark))
        s.openWindows = [] := by
      rw [List.filter_eq_nil_iff]
      intro a ha
      have := hInv.1 a ha
      simp only [decide_eq_true_eq]
      omega
    rw [hnil]
    simp

/-- Witness for C8: after the concrete run has emitted window [0, 60000), the
late event `demoEvent2` (event-time 2000) only increments the late counter. -/
theorem claim_C8_witness :
    AggInv (runAgg (initAggState (-1000000)) [demoEvent1, evtC]) ∧
    (windowStart demoEvent2.event_time + 60000 ≤
        (runAgg (initAggState (-1000000)) [demoEvent1, evtC]).watermark ∨
      (windowStart demoEvent2.event_time, demoEvent2.building) ∈
        emittedKeys (runAgg (initAggState (-1000000)) [demoEvent1, evtC])) ∧
    (stepEvent (runAgg (initAggState (-1000000)) [demoEvent1, evtC]) demoEvent2).lateCount =
      (runAgg (initAggState (-1000000)) [demoEvent1, evtC]).lateCount + 1 := by
  have hInv : AggInv (runAgg (initAggState (-1000000)) [demoEvent1, evtC]) := by
    unfold AggInv
    decide
  have hlate : windowStart demoEvent2.event_time + 60000 ≤
      (runAgg (initAggState (-1000000)) [demoEvent1, evtC]).watermark ∨
    (windowStart demoEvent2.event_time, demoEvent2.building) ∈
      emittedKeys (runAgg (initAggState (-1000000)) [demoEvent1, evtC]) := by
    left
    decide
  exact ⟨hInv, hlate, (claim_C8 _ _ hInv hlate).2.2.2⟩

end MLOpsStreams
